import Mathlib

/-!
Shallow embedding of `source/model/llama2.cpp` from the Inference repository:
the raw mapped model data (`LLamaRawModelData`), the LLama2 model lifecycle
(`init`, `read_model_file`, `init_mem`, `forward`) and the activation-buffer
registry (`insert_buffer`, `get_buffer`), together with theorems settling the
specification claims about them.

Machine integers are modelled as `Nat`/`Int`; pointers are element addresses
(`Nat`) except for the mmap data pointer, which distinguishes the null
pointer and the `MAP_FAILED` sentinel.  Code that can abort the process
through a glog `CHECK` returns in the `Exec` type, whose `fatal` constructor
marks process termination.  External collaborators that are not part of the
sources (the sentencepiece tokenizer, the filesystem, the allocator, the
body of `op::EmbeddingLayer::forward`) are supplied as explicit environment
records or function parameters, so every path of the translated functions is
the corresponding path of the C++.
-/

namespace Inference

/-- sizeof(float) on the target platform, in bytes. -/
def floatSize : Nat := 4

/-- base::DataType members used by llama2.cpp. -/
inductive DataType where
  | int32
  | fp32
  deriving DecidableEq, Repr

/-- base::DeviceType members used by llama2.cpp. -/
inductive DeviceType where
  | cpu
  | cuda
  deriving DecidableEq, Repr

/-- The error kinds of base::Status that llama2.cpp constructs. -/
inductive StatusCode where
  | success
  | pathNotValid
  | modelParseError
  | internalError
  | keyHasExits
  deriving DecidableEq, Repr

/-- base::Status: an error kind plus a human-readable message; set_err_msg
replaces the message and keeps the kind. -/
structure Status where
  code : StatusCode
  msg : String
  deriving DecidableEq, Repr

namespace error

/-- base::error::Success(). -/
def Success : Status := ⟨StatusCode.success, ""⟩

/-- base::error::PathNotValid(msg). -/
def PathNotValid (m : String) : Status := ⟨StatusCode.pathNotValid, m⟩

/-- base::error::ModelParseError(msg). -/
def ModelParseError (m : String) : Status := ⟨StatusCode.modelParseError, m⟩

/-- base::error::InternalError(msg). -/
def InternalError (m : String) : Status := ⟨StatusCode.internalError, m⟩

/-- base::error::KeyHasExits(msg), the duplicate-registry-key error (the
spec calls this kind KeyAlreadyExists). -/
def KeyHasExits (m : String) : Status := ⟨StatusCode.keyHasExits, m⟩

end error

/-- The possible values of the `float* data` member of LLamaRawModelData:
the null pointer, the MAP_FAILED sentinel of a failed mmap, or a genuine
mapped base address measured in float elements. -/
inductive MMapPtr where
  | nullPtr
  | mapFailed
  | addr (a : Nat)
  deriving DecidableEq, Repr

/-- The LLamaRawModelData aggregate of llama2.cpp.  The member defaults are
modelled from the spec (model/llama2.h is not among the sources): a freshly
constructed object holds no descriptor (-1) and a null data pointer, which is
what the RAII teardown in the destructor presupposes. -/
structure LLamaRawModelData where
  fd : Int := -1
  data : MMapPtr := MMapPtr.nullPtr
  weight_data : Nat := 0
  file_size : Nat := 0
  deriving DecidableEq, Repr

/-- Outcome of running the teardown logic in the destructor of
LLamaRawModelData: the state afterwards plus whether munmap and close were
invoked during this run. -/
structure TeardownResult where
  state : LLamaRawModelData
  did_munmap : Bool
  did_close : Bool
  deriving DecidableEq, Repr

/-- The destructor body of LLamaRawModelData (llama2.cpp lines 10-19): when
data is neither null nor MAP_FAILED it is unmapped and nulled; when fd is
not -1 it is closed and set to -1. -/
def LLamaRawModelData.destroy (m : LLamaRawModelData) : TeardownResult :=
  let step1 :=
    match m.data with
    | MMapPtr.addr _ => ({ m with data := MMapPtr.nullPtr }, true)
    | _ => (m, false)
  let step2 :=
    if step1.1.fd ≠ -1 then ({ step1.1 with fd := (-1 : Int) }, true) else (step1.1, false)
  ⟨step2.1, step1.2, step2.2⟩

/-- LLamaRawModelData::weight(offset) (lines 21-23): weight_data + offset,
in float elements. -/
def LLamaRawModelData.weight (m : LLamaRawModelData) (offset : Nat) : Nat :=
  m.weight_data + offset

/-- LLamaRawModelData::is_weight_valid(peek) (lines 25-31): true iff
peek * sizeof(float) < file_size, the product taken in size_t. -/
def LLamaRawModelData.is_weight_valid (m : LLamaRawModelData) (peek : Nat) : Bool :=
  peek * floatSize % 2 ^ 64 < m.file_size

/-- Modelled from the spec: `LlamaModelConfig` is declared in model/llama2.h,
which is not among the sources.  Spec section 6 describes the header as a
fixed-size record of 4-byte ints holding at least the embedding dimension,
the sequence length and the sign-encoded vocabulary size; the fields below
are exactly the ones llama2.cpp reads. -/
structure LlamaModelConfig where
  dim : Int
  seq_len : Int
  vocab_size : Int
  deriving DecidableEq, Repr

/-- Modelled from the spec: sizeof(LlamaModelConfig) in bytes, a fixed-size
record of 4-byte int fields (spec section 6).  No claim depends on the exact
value, only on the weight base being offset by it in float elements. -/
def configSizeof : Nat := 3 * 4

/-- tensor::Tensor as llama2.cpp observes it: an element type, a dimension
list, and the backing data address (none before allocation, some address
afterwards; ptr on an unallocated tensor is the null pointer). -/
structure Tensor where
  dtype : DataType
  dims : List Int
  ptr : Option Nat := none
  deriving DecidableEq, Repr

/-- Number of elements a tensor holds: the product of its dimensions. -/
def Tensor.numel (t : Tensor) : Nat :=
  (t.dims.map Int.toNat).prod

/-- The keys of the activation-buffer registry. -/
inductive ModelBufferIdx where
  | kInputTokens
  | kInputEmbeddings
  deriving DecidableEq, Repr

/-- Modelled from the spec: the numeric value of the enum member (the header
declaring the enum is not among the sources); it only feeds the text of the
duplicate-key message. -/
def ModelBufferIdx.toInt : ModelBufferIdx → Int
  | ModelBufferIdx.kInputTokens => 0
  | ModelBufferIdx.kInputEmbeddings => 1

/-- The registry std::map<ModelBufferIdx, tensor::Tensor>, as a partial map. -/
def BufferMap : Type := ModelBufferIdx → Option Tensor

/-- The registry of a freshly constructed model: no key bound. -/
def emptyBuffers : BufferMap := fun _ => none

/-- LLama2Model::insert_buffer (lines 180-186): a key already present yields
KeyHasExits and the map is left untouched; otherwise the pair is inserted. -/
def insert_buffer (buffers : BufferMap) (idx : ModelBufferIdx) (t : Tensor) :
    Status × BufferMap :=
  if (buffers idx).isSome then
    (error.KeyHasExits (toString idx.toInt ++ " has exits in the buffers"), buffers)
  else
    (error.Success, fun j => if j = idx then some t else buffers j)

/-- Outcome of code that can abort the process through a glog CHECK: either
a normal value or a fatal, process-terminating check failure. -/
inductive Exec (α : Type) where
  | ok (a : α)
  | fatal (what : String)
  deriving Repr

/-- The text of the fatal check in get_buffer (lines 188-196). -/
def checkGtMsg : String := "CHECK_GT(buffers_.count(buffer_idx), 0) failed"

/-- LLama2Model::get_buffer (lines 188-196): CHECK_GT(count, 0) terminates
the process when the key was never registered; otherwise the mapped tensor
is returned. -/
def get_buffer (buffers : BufferMap) (idx : ModelBufferIdx) : Exec Tensor :=
  match buffers idx with
  | some t => Exec.ok t
  | none => Exec.fatal checkGtMsg

/-- op::EmbeddingLayer state visible to llama2.cpp: the constructor
arguments and the weight/input/output slots bound through set_weight,
set_input and set_output.  The computation body of the layer lives in
op/embedding_layer.cpp, outside the sources. -/
structure EmbeddingLayer where
  dim : Int
  seq_len : Int
  vocab_size : Int
  weight_shape : List Int := []
  weight_ptr : Nat := 0
  weight_device : Option DeviceType := none
  input0 : Option Tensor := none
  input1 : Option Tensor := none
  output0 : Option Tensor := none
  deriving DecidableEq, Repr

/-- The fields of LLama2Model (with its Model base) that llama2.cpp reads or
writes.  A freshly constructed model carries only the two paths; encode_layer
is the presence of the (externally implemented) sentencepiece encode layer. -/
structure LLama2Model where
  token_path : String
  model_path : String
  vocab_size : Int := 0
  device_type : Option DeviceType := none
  encode_layer : Bool := false
  config : Option LlamaModelConfig := none
  raw_model_data : Option LLamaRawModelData := none
  embedding_layer : Option EmbeddingLayer := none
  buffers : BufferMap := emptyBuffers

/-- Environment for init: whether sentencepiece Load succeeds on the token
path, and the GetPieceSize result. -/
structure TokenizerEnv where
  loads : Bool
  piece_size : Int
  deriving DecidableEq, Repr

/-- Environment for read_model_file: the outcomes of fopen, fread (none
when the header read comes back short), ftell, open(O_RDONLY) and mmap on
the model path. -/
structure ModelFileEnv where
  fopen_ok : Bool
  header : Option LlamaModelConfig
  file_size : Nat
  open_ok : Bool
  fd_val : Int
  mmap_ok : Bool
  mmap_addr : Nat
  deriving DecidableEq, Repr

/-- LLama2Model::create_embedding_layer (lines 151-162): the layer is built
from the header fields, its single weight slot is bound as a zero-copy view
at raw.weight(0) shaped by the absolute vocabulary size and dim, and its
device tag is set to the runtime device type. -/
def create_embedding_layer (cfg : LlamaModelConfig) (raw : LLamaRawModelData)
    (device : Option DeviceType) (vocab : Int) : EmbeddingLayer :=
  { dim := cfg.dim
    seq_len := cfg.seq_len
    vocab_size := (cfg.vocab_size.natAbs : Int)
    weight_shape := [(vocab.natAbs : Int), cfg.dim]
    weight_ptr := raw.weight 0
    weight_device := device }

/-- Result of read_model_file: the returned status, the updated model
fields, and whether the stdio FILE opened by fopen is still open when the
function returns (the O_RDONLY descriptor and the mapping live inside
raw_model_data and are not separate resources). -/
structure ReadResult where
  status : Status
  model : LLama2Model
  stdio_open : Bool

/-- LLama2Model::read_model_file (lines 95-144), step by step: fopen; fread
of the header into the fresh config; the vocabulary-size check; allocation
of raw model data and ftell/fclose; open(O_RDONLY); mmap; the weight-base
computation; construction of the embedding layer.  Every early return is the
corresponding return of the C++, and stdio_open records whether that return
happens before the fclose on line 115.  The null test on line 132 can never
fire (raw_model_data_ was assigned a fresh object on line 112) and the null
test of operator new on line 139 likewise, so neither has a branch here. -/
def read_model_file (m : LLama2Model) (env : ModelFileEnv) : ReadResult :=
  if !env.fopen_ok then
    ⟨error.PathNotValid "Failed to open the file. The path may be invalid.", m, false⟩
  else
    match env.header with
    | none =>
      ⟨error.ModelParseError
          "Failed to retrieve the configuration information from the model file.",
        { m with config := some ⟨0, 0, 0⟩ }, true⟩
    | some cfg =>
      let m1 := { m with config := some cfg }
      if (cfg.vocab_size.natAbs : Int) ≠ m.vocab_size then
        ⟨error.ModelParseError
            "Vocabulary size mismatch between the model file and the token list.",
          m1, true⟩
      else
        let raw0 : LLamaRawModelData := { file_size := env.file_size }
        let m2 := { m1 with raw_model_data := some raw0 }
        if !env.open_ok then
          ⟨error.PathNotValid ("Failed to open the weight file " ++ m.model_path ++
              " may be the path does not exist!"), m2, false⟩
        else
          let raw1 := { raw0 with
            fd := env.fd_val
            data := if env.mmap_ok then MMapPtr.addr env.mmap_addr else MMapPtr.mapFailed }
          let m3 := { m2 with raw_model_data := some raw1 }
          if !env.mmap_ok then
            ⟨error.ModelParseError ("Failed to map the weight file " ++ m.model_path ++
                " into memory."), m3, false⟩
          else
            let raw2 := { raw1 with
              weight_data := env.mmap_addr + configSizeof / floatSize }
            let layer := create_embedding_layer cfg raw2 m.device_type m.vocab_size
            ⟨error.Success,
              { m3 with raw_model_data := some raw2, embedding_layer := some layer },
              false⟩

/-- Modelled from the spec: the CPU allocator hands init_mem a fresh nonnull
host address for the token-id tensor; the concrete value is immaterial. -/
def tokensBase : Nat := 4096

/-- Modelled from the spec: the fresh address of the embedding activation
tensor. -/
def embeddingsBase : Nat := 8192

/-- The token-id activation tensor that init_mem allocates: seq_len int32
elements (llama2.cpp line 171). -/
def inputTokensTensor (cfg : LlamaModelConfig) : Tensor :=
  ⟨DataType.int32, [cfg.seq_len], some tokensBase⟩

/-- The embedding activation tensor that init_mem allocates: seq_len by dim
fp32 elements (llama2.cpp line 172). -/
def inputEmbeddingsTensor (cfg : LlamaModelConfig) : Tensor :=
  ⟨DataType.fp32, [cfg.seq_len, cfg.dim], some embeddingsBase⟩

/-- LLama2Model::init_mem (lines 164-178): a missing config returns
immediately; the device check and the two insert_buffer results are glog
CHECKs, so their failure is fatal (none), not a status. -/
def init_mem (m : LLama2Model) : Option LLama2Model :=
  match m.config with
  | none => some m
  | some cfg =>
    if m.device_type ≠ some DeviceType.cpu then none
    else
      let r1 := insert_buffer m.buffers ModelBufferIdx.kInputTokens (inputTokensTensor cfg)
      if r1.1.code ≠ StatusCode.success then none
      else
        let r2 := insert_buffer r1.2 ModelBufferIdx.kInputEmbeddings (inputEmbeddingsTensor cfg)
        if r2.1.code ≠ StatusCode.success then none
        else some { m with buffers := r2.2 }

/-- Result of init: the returned status, the updated model, and whether the
stdio FILE of read_model_file is still open (leaked) at that point. -/
structure InitResult where
  status : Status
  model : LLama2Model
  stdio_leak : Bool

/-- LLama2Model::init (lines 37-64): empty token path and tokenizer load
failure yield PathNotValid; the piece size is stored in vocab_size before
the non-positivity check; device type and encode layer are set before
read_model_file runs; a read failure is returned as is; otherwise init_mem
runs (its CHECKs are fatal) and Success is returned. -/
def init (m : LLama2Model) (tok : TokenizerEnv) (env : ModelFileEnv)
    (device : DeviceType) : Exec InitResult :=
  if m.token_path = "" then
    Exec.ok ⟨error.PathNotValid m.token_path, m, false⟩
  else if !tok.loads then
    Exec.ok ⟨error.PathNotValid m.token_path, m, false⟩
  else
    let m1 := { m with vocab_size := tok.piece_size }
    if tok.piece_size ≤ 0 then
      Exec.ok ⟨error.ModelParseError "The vocab size param read error from the model file!",
        m1, false⟩
    else
      let m2 := { m1 with device_type := some device, encode_layer := true }
      let r := read_model_file m2 env
      if r.status.code ≠ StatusCode.success then
        Exec.ok ⟨r.status, r.model, r.stdio_open⟩
      else
        match init_mem r.model with
        | some m3 => Exec.ok ⟨error.Success, m3, r.stdio_open⟩
        | none => Exec.fatal "CHECK failed in init_mem"

/-- The token write loop of forward (lines 73-76): tokens[i] is stored at
input_tokens_ptr + i for every i, with no bounds check of any kind. -/
def writeTokens (heap : Nat → Int) (base : Nat) (tokens : List Int) : Nat → Int :=
  match tokens with
  | [] => heap
  | t :: rest => writeTokens (fun a => if a = base then t else heap a) (base + 1) rest

/-- The element offsets (relative to the token buffer base) that the token
write loop stores to: 0, 1, ..., tokens.length - 1. -/
def writeOffsets (tokens : List Int) : List Nat :=
  List.range tokens.length

/-- The embedding layer with its slots bound as forward binds them on lines
83-85: input 0 the token-id tensor, input 1 the scalar token-count tensor of
line 77-78 (a fresh unallocated int32 tensor sized tokens.size()), output 0
the embedding tensor. -/
def boundLayer (layer : EmbeddingLayer) (tin tout : Tensor) (tokens : List Int) :
    EmbeddingLayer :=
  { layer with
    input0 := some tin
    input1 := some ⟨DataType.int32, [(tokens.length : Int)], none⟩
    output0 := some tout }

/-- What forward yields when it does not hit a fatal CHECK: the status, the
updated model (the slot bindings of the member embedding layer change), and
the heap after the token writes. -/
structure ForwardResult where
  status : Status
  model : LLama2Model
  heap : Nat → Int

/-- LLama2Model::forward (lines 66-93).  start_pos is a parameter of the
C++ signature that the body never reads.  embedForward stands for the body
of op::EmbeddingLayer::forward, which is outside the sources; it receives
the layer with its freshly bound slots and yields a status.  The two
get_buffer calls can terminate the process (fatal); the null-pointer test of
line 70 and the missing-layer test of line 79 return InternalError. -/
def forward (m : LLama2Model) (heap : Nat → Int) (tokens : List Int)
    (start_pos : Int) (embedForward : EmbeddingLayer → Status) :
    Exec ForwardResult :=
  match get_buffer m.buffers ModelBufferIdx.kInputTokens with
  | Exec.fatal w => Exec.fatal w
  | Exec.ok input_tokens =>
    match get_buffer m.buffers ModelBufferIdx.kInputEmbeddings with
    | Exec.fatal w => Exec.fatal w
    | Exec.ok input_embeddings =>
      match input_tokens.ptr with
      | none =>
        Exec.ok ⟨error.InternalError
            "Cannot get the input token pointer in the forward function.", m, heap⟩
      | some base =>
        let heap1 := writeTokens heap base tokens
        match m.embedding_layer with
        | none =>
          Exec.ok ⟨error.InternalError "Create embedding layer failed in the init stage.",
            m, heap1⟩
        | some layer =>
          let layer1 := boundLayer layer input_tokens input_embeddings tokens
          let m1 := { m with embedding_layer := some layer1 }
          let st := embedForward layer1
          if st.code ≠ StatusCode.success then
            Exec.ok ⟨⟨st.code, "The embedding layer forward failed: " ++ st.msg⟩, m1, heap1⟩
          else
            Exec.ok ⟨error.Success, m1, heap1⟩

/-! ## Helper lemmas shared by the claim theorems -/

/-- read_model_file never touches the activation-buffer registry. -/
theorem read_model_file_buffers (m : LLama2Model) (env : ModelFileEnv) :
    (read_model_file m env).model.buffers = m.buffers := by
  rcases env with ⟨fo, hd, fs, oo, fv, mo, ma⟩
  cases fo <;> cases hd <;>
    simp only [read_model_file, Bool.not_true, Bool.not_false] <;>
    split_ifs <;> rfl

/-- forward hits the fatal CHECK of get_buffer when the token-id buffer was
never registered: the very first get_buffer call terminates the process. -/
theorem forward_fatal_of_missing_tokens (m : LLama2Model) (heap : Nat → Int)
    (tokens : List Int) (sp : Int) (ef : EmbeddingLayer → Status)
    (h : m.buffers ModelBufferIdx.kInputTokens = none) :
    forward m heap tokens sp ef = Exec.fatal checkGtMsg := by
  simp [forward, get_buffer, h]

/-- Addresses strictly below the write base are untouched by the token write
loop. -/
theorem writeTokens_below (tokens : List Int) (heap : Nat → Int) (base a : Nat)
    (h : a < base) : writeTokens heap base tokens a = heap a := by
  induction tokens generalizing heap base with
  | nil => rfl
  | cons t rest ih =>
    rw [writeTokens, ih _ (base + 1) (Nat.lt_succ_of_lt h)]
    simp [Nat.ne_of_lt h]

/-- The token write loop stores tokens[i] at base + i for every in-range i. -/
theorem writeTokens_get (tokens : List Int) (heap : Nat → Int) (base i : Nat)
    (h : i < tokens.length) :
    writeTokens heap base tokens (base + i) = tokens.getD i 0 := by
  induction tokens generalizing heap base i with
  | nil => cases h
  | cons t rest ih =>
    cases i with
    | zero =>
      simp only [writeTokens, Nat.add_zero]
      rw [writeTokens_below rest _ (base + 1) base (Nat.lt_succ_self base)]
      simp
    | succ j =>
      have hj : j < rest.length := Nat.lt_of_succ_lt_succ h
      have hb : base + (j + 1) = (base + 1) + j := by omega
      rw [writeTokens, hb, ih _ (base + 1) j hj]
      rfl

/-- The element offsets written by the loop all lie below a capacity exactly
when the token count does not exceed that capacity. -/
theorem offsets_in_bounds_iff (tokens : List Int) (cap : Nat) :
    (∀ i ∈ writeOffsets tokens, i < cap) ↔ tokens.length ≤ cap := by
  simp only [writeOffsets, List.mem_range]
  constructor
  · intro h
    rcases Nat.eq_zero_or_pos tokens.length with h0 | h0
    · omega
    · have := h (tokens.length - 1) (by omega)
      omega
  · intro h i hi
    omega

/-! ## Claim theorems -/

/-- The mapped file of the C1 evidence: a six-byte file. -/
def c1Data : LLamaRawModelData := { file_size := 6 }

/-- C1: refuted as stated, against the code.  The claim (with the spec) says
is_weight_valid(offset) is true iff (offset + 1) * 4 <= file_size, the
condition under which all four bytes of the float at that element offset lie
inside the file.  The code tests offset * 4 < file_size instead: on a
six-byte file, offset 1 is accepted (4 < 6) although the dereference would
read bytes 4..7, past the end of the file; (1 + 1) * 4 <= 6 is false.  The
two conditions agree exactly when file_size is a multiple of 4. -/
theorem is_weight_valid_offbyone_bug :
    c1Data.is_weight_valid 1 = true ∧ ¬((1 + 1) * floatSize ≤ c1Data.file_size) := by
  decide

/-- The raw model data of the C5 counterexample: a failed mapping (data is
the MAP_FAILED sentinel) with an open descriptor, the state read_model_file
leaves behind when mmap fails. -/
def c5Data : LLamaRawModelData := { fd := 5, data := MMapPtr.mapFailed, file_size := 64 }

/-- C5 counterexample: the claim says that after the destructor logic runs
the data pointer is null.  On the reachable state where mmap failed, the
destructor closes the descriptor but leaves data equal to MAP_FAILED, not
null. -/
theorem destroy_mapfailed_cex :
    c5Data.destroy.state.data ≠ MMapPtr.nullPtr ∧
    c5Data.destroy.did_close = true ∧
    c5Data.destroy.did_munmap = false := by
  decide

/-- C5 as amended: the teardown closes and sets fd to -1 in every state, and
leaves data either null or the MAP_FAILED sentinel (null whenever a real
mapping existed); in either case a second run of the teardown performs no
munmap and no close and leaves the state unchanged, so unmap and close
happen at most once each across repeated runs. -/
theorem destroy_idempotent (m : LLamaRawModelData) :
    m.destroy.state.fd = -1 ∧
    (m.destroy.state.data = MMapPtr.nullPtr ∨ m.destroy.state.data = MMapPtr.mapFailed) ∧
    m.destroy.state.destroy.did_munmap = false ∧
    m.destroy.state.destroy.did_close = false ∧
    m.destroy.state.destroy.state = m.destroy.state := by
  rcases m with ⟨fd, data, wd, fs⟩
  cases data <;> by_cases h : fd = -1 <;>
    simp [LLamaRawModelData.destroy, h]

/-- C9: forward ignores start_pos entirely: for every state, heap, token
list and embedding-layer behaviour, two calls differing only in start_pos
return the same outcome, the same final model state (registry and slot
bindings included) and the same heap. -/
theorem forward_start_pos_passthrough (m : LLama2Model) (heap : Nat → Int)
    (tokens : List Int) (p1 p2 : Int) (ef : EmbeddingLayer → Status) :
    forward m heap tokens p1 ef = forward m heap tokens p2 ef := rfl

/-- C7: insert_buffer on a key that is already bound returns the
duplicate-key error (base::error::KeyHasExits, the kind the spec names
KeyAlreadyExists) and returns the registry unchanged: the tensor bound to
the key is not overwritten and no other key is affected. -/
theorem insert_buffer_existing_key (buffers : BufferMap) (idx : ModelBufferIdx)
    (t t0 : Tensor) (h : buffers idx = some t0) :
    insert_buffer buffers idx t =
      (error.KeyHasExits (toString idx.toInt ++ " has exits in the buffers"), buffers) := by
  simp [insert_buffer, h]

/-- The registry of the C7 witness: the token key is bound. -/
def c7Tensor : Tensor := ⟨DataType.int32, [8], some tokensBase⟩

/-- A registry with exactly the token-id key bound. -/
def c7Buffers : BufferMap :=
  fun j => if j = ModelBufferIdx.kInputTokens then some c7Tensor else none

/-- Witness for C7 at a concrete registry: the key is bound, and the insert
fails with the duplicate-key error leaving the registry untouched. -/
theorem insert_buffer_existing_key_witness :
    c7Buffers ModelBufferIdx.kInputTokens = some c7Tensor ∧
    insert_buffer c7Buffers ModelBufferIdx.kInputTokens ⟨DataType.fp32, [2], none⟩ =
      (error.KeyHasExits (toString ModelBufferIdx.kInputTokens.toInt ++ " has exits in the buffers"),
        c7Buffers) :=
  ⟨rfl, insert_buffer_existing_key c7Buffers ModelBufferIdx.kInputTokens
    ⟨DataType.fp32, [2], none⟩ c7Tensor rfl⟩

/-- A freshly constructed model: nothing registered. -/
def c3Model : LLama2Model := { token_path := "tok.model", model_path := "weights.bin" }

/-- The all-zero heap. -/
def heap0 : Nat → Int := fun _ => 0

/-- An embedding-layer body that always succeeds. -/
def ef0 : EmbeddingLayer → Status := fun _ => error.Success

/-- C3 counterexample: on a state where the token-id buffer was never
registered, forward does not return a recoverable InternalError status; its
first get_buffer call hits the fatal CHECK and terminates the process. -/
theorem forward_unregistered_fatal_cex :
    forward c3Model heap0 [1] 0 ef0 = Exec.fatal checkGtMsg := rfl

/-- C3 as amended: when the token-id activation buffer was never registered,
forward terminates the process through the CHECK_GT in get_buffer rather
than returning any status; the recoverable InternalError return of forward
concerns a null data pointer inside an already registered tensor, not a
missing registration. -/
theorem forward_unregistered_fatal (m : LLama2Model) (heap : Nat → Int)
    (tokens : List Int) (sp : Int) (ef : EmbeddingLayer → Status)
    (h : m.buffers ModelBufferIdx.kInputTokens = none) :
    forward m heap tokens sp ef = Exec.fatal checkGtMsg :=
  forward_fatal_of_missing_tokens m heap tokens sp ef h

/-- A second fresh model for the C3 witness. -/
def c3ModelB : LLama2Model := { token_path := "tok2.model", model_path := "w2.bin" }

/-- Witness for C3 as amended, at a concrete unregistered state. -/
theorem forward_unregistered_fatal_witness :
    c3ModelB.buffers ModelBufferIdx.kInputTokens = none ∧
    forward c3ModelB heap0 [3, 4] 7 ef0 = Exec.fatal checkGtMsg :=
  ⟨rfl, forward_unregistered_fatal c3ModelB heap0 [3, 4] 7 ef0 rfl⟩

/-- The model state of the C2 evidence, as it stands when read_model_file is
entered from init: the tokenizer reported five pieces. -/
def c2Model : LLama2Model :=
  { token_path := "tok.model", model_path := "llama.bin", vocab_size := 5,
    device_type := some DeviceType.cpu, encode_layer := true }

/-- The C2 file environment: the model file opens and its header reads fine,
but its vocab_size is 7 while the tokenizer has 5 pieces. -/
def c2Env : ModelFileEnv :=
  { fopen_ok := true, header := some ⟨4, 8, 7⟩, file_size := 156,
    open_ok := true, fd_val := 3, mmap_ok := true, mmap_addr := 100 }

/-- C2: the vocabulary-mismatch path does return ModelParseError and
establishes no mapping (raw_model_data is never created, so no O_RDONLY
descriptor and no mmap exist), but the stdio FILE opened by fopen on line 97
is still open at the return: the early return on lines 108-110 runs before
the fclose on line 115, so the FILE handle leaks, contradicting the
no-descriptor-leak part of the claim. -/
theorem read_model_file_vocab_mismatch_file_leak :
    (read_model_file c2Model c2Env).status =
      error.ModelParseError
        "Vocabulary size mismatch between the model file and the token list." ∧
    (read_model_file c2Model c2Env).model.raw_model_data = none ∧
    (read_model_file c2Model c2Env).stdio_open = true :=
  ⟨rfl, rfl, rfl⟩

/-- The raw model data a successful load must produce: the opened
descriptor, the mapped base, the total file size, and a weight-region base
equal to the mapped base plus sizeof(LlamaModelConfig) measured in 4-byte
float elements. -/
def loadedRaw (env : ModelFileEnv) : LLamaRawModelData :=
  { fd := env.fd_val
    data := MMapPtr.addr env.mmap_addr
    weight_data := env.mmap_addr + configSizeof / floatSize
    file_size := env.file_size }

/-- C6: after a successful read_model_file the raw model data holds exactly
the opened descriptor, the mapped base address, the file size, and a weight
region base equal to the mapped base plus sizeof(LlamaModelConfig) measured
in 4-byte float elements; and weight(offset) is the weight base plus offset
for every offset. -/
theorem weight_base_after_load (m : LLama2Model) (env : ModelFileEnv)
    (h : (read_model_file m env).status.code = StatusCode.success) :
    (read_model_file m env).model.raw_model_data = some (loadedRaw env) ∧
    ∀ (raw : LLamaRawModelData) (offset : Nat),
      raw.weight offset = raw.weight_data + offset := by
  refine ⟨?_, fun raw offset => rfl⟩
  rcases env with ⟨fo, hd, fs, oo, fv, mo, ma⟩
  cases fo <;> cases hd <;>
    simp only [read_model_file, Bool.not_true, Bool.not_false] at h ⊢ <;>
    split_ifs at h ⊢ <;>
    simp_all [error.PathNotValid, error.ModelParseError, error.Success, loadedRaw]

/-- The model and environment of the C6 witness: a matching, sign-encoded
vocabulary size of absolute value 5; everything succeeds. -/
def c6Model : LLama2Model :=
  { token_path := "t.model", model_path := "w.bin", vocab_size := 5,
    device_type := some DeviceType.cpu, encode_layer := true }

/-- The C6 environment: open, header read, open(O_RDONLY) and mmap all
succeed; the mapping starts at element address 50. -/
def c6Env : ModelFileEnv :=
  { fopen_ok := true, header := some ⟨4, 8, -5⟩, file_size := 172,
    open_ok := true, fd_val := 3, mmap_ok := true, mmap_addr := 50 }

/-- Witness for C6 at a concrete successful load: the status is success, the
weight base is 50 + 12 / 4 = 53, and weight(9) = 53 + 9. -/
theorem weight_base_after_load_witness :
    (read_model_file c6Model c6Env).status.code = StatusCode.success ∧
    (read_model_file c6Model c6Env).model.raw_model_data =
      some { fd := 3, data := MMapPtr.addr 50, weight_data := 53, file_size := 172 } ∧
    LLamaRawModelData.weight ⟨3, MMapPtr.addr 50, 53, 172⟩ 9 = 53 + 9 :=
  ⟨rfl, (weight_base_after_load c6Model c6Env rfl).1,
    (weight_base_after_load c6Model c6Env rfl).2 ⟨3, MMapPtr.addr 50, 53, 172⟩ 9⟩

/-- Every failing run of init leaves the registry exactly as it found it:
all failure returns happen before init_mem, the only writer of buffers. -/
theorem init_failure_buffers (m : LLama2Model) (tok : TokenizerEnv)
    (env : ModelFileEnv) (device : DeviceType) (r : InitResult)
    (hrun : init m tok env device = Exec.ok r)
    (hfail : r.status.code ≠ StatusCode.success) :
    r.model.buffers = m.buffers := by
  unfold init at hrun
  split_ifs at hrun with h1 h2 h3
  · cases hrun
    rfl
  · cases hrun
    rfl
  · cases hrun
    rfl
  · simp only [] at hrun
    split at hrun
    · cases hrun
      exact read_model_file_buffers _ env
    · split at hrun
      · cases hrun
        exact absurd rfl hfail
      · cases hrun

/-- A fresh model for the C4 evidence. -/
def c4Model : LLama2Model := { token_path := "vocab.model", model_path := "m.bin" }

/-- The C4 tokenizer environment: loads fine, five pieces. -/
def c4Tok : TokenizerEnv := { loads := true, piece_size := 5 }

/-- The C4 file environment: the model file cannot even be opened, so
read_model_file fails after device type and encode layer were already set. -/
def c4Env : ModelFileEnv :=
  { fopen_ok := false, header := none, file_size := 0,
    open_ok := false, fd_val := -1, mmap_ok := false, mmap_addr := 0 }

/-- The result of the failing C4 init run. -/
def c4Res : InitResult :=
  match init c4Model c4Tok c4Env DeviceType.cpu with
  | Exec.ok r => r
  | Exec.fatal _ => ⟨error.Success, c4Model, false⟩

/-- C4 counterexample: init is not field-level atomic.  On a run that fails
inside read_model_file, the returned state still carries the vocabulary
size, the device type and the encode layer set by the completed earlier
stages, refuting the claim that no field set by a completed stage remains
populated after a failing init. -/
theorem init_failure_fields_populated_cex :
    c4Res.status.code = StatusCode.pathNotValid ∧
    c4Res.model.encode_layer = true ∧
    c4Res.model.device_type = some DeviceType.cpu ∧
    c4Res.model.vocab_size = 5 :=
  ⟨rfl, rfl, rfl, rfl⟩

/-- C4 as amended: a failing init is not atomic at the level of fields
(device type, encode layer, config and raw model data may stay populated),
but it never registers any activation buffer, so the runtime is not
partially usable: starting from a fresh model, every failing init leaves the
registry empty and any subsequent forward call dies on the fatal registry
CHECK instead of running on partial state. -/
theorem init_failure_not_forwardable (m : LLama2Model) (tok : TokenizerEnv)
    (env : ModelFileEnv) (device : DeviceType) (r : InitResult)
    (hrun : init m tok env device = Exec.ok r)
    (hfail : r.status.code ≠ StatusCode.success)
    (hempty : m.buffers = emptyBuffers) :
    r.model.buffers = emptyBuffers ∧
    ∀ (heap : Nat → Int) (tokens : List Int) (sp : Int) (ef : EmbeddingLayer → Status),
      forward r.model heap tokens sp ef = Exec.fatal checkGtMsg := by
  have hbuf : r.model.buffers = emptyBuffers :=
    (init_failure_buffers m tok env device r hrun hfail).trans hempty
  refine ⟨hbuf, fun heap tokens sp ef => forward_fatal_of_missing_tokens _ _ _ _ _ ?_⟩
  rw [hbuf]
  rfl

/-- Witness for C4 as amended, at the concrete failing run of the
counterexample input: the hypotheses hold and both conclusions follow, the
second instantiated at a concrete forward call. -/
theorem init_failure_not_forwardable_witness :
    (init c4Model c4Tok c4Env DeviceType.cpu = Exec.ok c4Res ∧
      c4Res.status.code ≠ StatusCode.success ∧
      c4Model.buffers = emptyBuffers) ∧
    c4Res.model.buffers = emptyBuffers ∧
    forward c4Res.model heap0 [9] 2 ef0 = Exec.fatal checkGtMsg :=
  ⟨⟨rfl, by decide, rfl⟩,
    (init_failure_not_forwardable c4Model c4Tok c4Env DeviceType.cpu c4Res rfl
      (by decide) rfl).1,
    (init_failure_not_forwardable c4Model c4Tok c4Env DeviceType.cpu c4Res rfl
      (by decide) rfl).2 heap0 [9] 2 ef0⟩

/-- C8: when the embedding layer forward fails inside LLama2Model::forward,
the returned status keeps the original error kind and its message is the
original message with the context prefix of line 88 prepended, not a
replacement. -/
theorem forward_embedding_error_message (m : LLama2Model) (heap : Nat → Int)
    (tokens : List Int) (sp : Int) (ef : EmbeddingLayer → Status)
    (tin tout : Tensor) (base : Nat) (layer : EmbeddingLayer)
    (h1 : m.buffers ModelBufferIdx.kInputTokens = some tin)
    (h2 : m.buffers ModelBufferIdx.kInputEmbeddings = some tout)
    (h3 : tin.ptr = some base)
    (h4 : m.embedding_layer = some layer)
    (h5 : (ef (boundLayer layer tin tout tokens)).code ≠ StatusCode.success) :
    forward m heap tokens sp ef =
      Exec.ok ⟨⟨(ef (boundLayer layer tin tout tokens)).code,
          "The embedding layer forward failed: " ++ (ef (boundLayer layer tin tout tokens)).msg⟩,
        { m with embedding_layer := some (boundLayer layer tin tout tokens) },
        writeTokens heap base tokens⟩ := by
  simp [forward, get_buffer, h1, h2, h3, h4, h5]

/-- The header of the C8 witness model. -/
def c8Cfg : LlamaModelConfig := ⟨4, 8, 10⟩

/-- The (unbound) embedding layer of the C8 witness model. -/
def c8Layer : EmbeddingLayer := { dim := 4, seq_len := 8, vocab_size := 10 }

/-- The registry of the C8 witness model: both activation buffers bound. -/
def c8Buffers : BufferMap := fun j =>
  match j with
  | ModelBufferIdx.kInputTokens => some (inputTokensTensor c8Cfg)
  | ModelBufferIdx.kInputEmbeddings => some (inputEmbeddingsTensor c8Cfg)

/-- An initialized model for the C8 witness. -/
def c8Model : LLama2Model :=
  { token_path := "t.model", model_path := "w.bin", vocab_size := 10,
    device_type := some DeviceType.cpu, encode_layer := true,
    config := some c8Cfg, embedding_layer := some c8Layer, buffers := c8Buffers }

/-- An embedding-layer body that fails with a fixed message. -/
def efFail : EmbeddingLayer → Status := fun _ => error.InternalError "token index out of range"

/-- Witness for C8 at a concrete initialized model and a failing embedding
body: the returned status is the original InternalError kind with the
original message behind the context prefix. -/
theorem forward_embedding_error_message_witness :
    (c8Model.buffers ModelBufferIdx.kInputTokens = some (inputTokensTensor c8Cfg) ∧
      c8Model.buffers ModelBufferIdx.kInputEmbeddings = some (inputEmbeddingsTensor c8Cfg) ∧
      (inputTokensTensor c8Cfg).ptr = some tokensBase ∧
      c8Model.embedding_layer = some c8Layer ∧
      (efFail (boundLayer c8Layer (inputTokensTensor c8Cfg) (inputEmbeddingsTensor c8Cfg)
        [3, 7])).code ≠ StatusCode.success) ∧
    forward c8Model heap0 [3, 7] 0 efFail =
      Exec.ok ⟨⟨StatusCode.internalError,
          "The embedding layer forward failed: token index out of range"⟩,
        { c8Model with embedding_layer := some (boundLayer c8Layer (inputTokensTensor c8Cfg)
            (inputEmbeddingsTensor c8Cfg) [3, 7]) },
        writeTokens heap0 tokensBase [3, 7]⟩ :=
  ⟨⟨rfl, rfl, rfl, rfl, by decide⟩,
    forward_embedding_error_message c8Model heap0 [3, 7] 0 efFail
      (inputTokensTensor c8Cfg) (inputEmbeddingsTensor c8Cfg) tokensBase c8Layer
      rfl rfl rfl rfl (by decide)⟩

/-- C10: init_mem registers the token-id buffer as a tensor of exactly
seq_len int32 elements; the token write loop of forward stores every token
at its offset unconditionally (no capacity check exists); and all written
offsets lie inside the buffer extent exactly when tokens.length does not
exceed seq_len, so any longer token list writes past the buffer. -/
theorem forward_token_write_bounds (cfg : LlamaModelConfig) (m m2 : LLama2Model)
    (h1 : m.config = some cfg)
    (h2 : init_mem m = some m2)
    (h3 : m.buffers ModelBufferIdx.kInputTokens = none) :
    m2.buffers ModelBufferIdx.kInputTokens = some (inputTokensTensor cfg) ∧
    (inputTokensTensor cfg).numel = cfg.seq_len.toNat ∧
    (∀ (heap : Nat → Int) (tokens : List Int) (i : Nat), i < tokens.length →
      writeTokens heap tokensBase tokens (tokensBase + i) = tokens.getD i 0) ∧
    (∀ tokens : List Int,
      (∀ i ∈ writeOffsets tokens, i < (inputTokensTensor cfg).numel) ↔
        tokens.length ≤ cfg.seq_len.toNat) := by
  have hn : (inputTokensTensor cfg).numel = cfg.seq_len.toNat := by
    simp [inputTokensTensor, Tensor.numel]
  refine ⟨?_, hn, fun heap tokens i hi => writeTokens_get tokens heap tokensBase i hi,
    fun tokens => by rw [hn]; exact offsets_in_bounds_iff tokens _⟩
  unfold init_mem at h2
  rw [h1] at h2
  rcases hemb : m.buffers ModelBufferIdx.kInputEmbeddings with _ | t2 <;>
    simp only [insert_buffer, h3, hemb] at h2 <;>
    split at h2 <;>
    simp_all [insert_buffer, h3, hemb]
  all_goals
    first
    | exact absurd h2.2.1 (by simp [error.KeyHasExits])
    | (obtain ⟨-, hm2⟩ := h2
       subst hm2
       simp)

/-- The header of the C10 witness model: seq_len 8. -/
def c10Cfg : LlamaModelConfig := ⟨4, 8, 10⟩

/-- The C10 witness model just before init_mem runs. -/
def c10Model : LLama2Model :=
  { token_path := "t2.model", model_path := "w2.bin", vocab_size := 10,
    device_type := some DeviceType.cpu, encode_layer := true, config := some c10Cfg }

/-- The model state init_mem produces on the C10 witness model. -/
def c10After : LLama2Model := (init_mem c10Model).getD c10Model

/-- Witness for C10 at a concrete init_mem run with seq_len 8: the token
buffer holds 8 int32 elements, the loop writes token 7 at offset 1, and the
write offsets of a two-token list stay in bounds since 2 <= 8. -/
theorem forward_token_write_bounds_witness :
    (c10Model.config = some c10Cfg ∧ init_mem c10Model = some c10After ∧
      c10Model.buffers ModelBufferIdx.kInputTokens = none) ∧
    c10After.buffers ModelBufferIdx.kInputTokens = some (inputTokensTensor c10Cfg) ∧
    (inputTokensTensor c10Cfg).numel = 8 ∧
    writeTokens heap0 tokensBase [3, 7] (tokensBase + 1) = ([3, 7] : List Int).getD 1 0 ∧
    ((∀ i ∈ writeOffsets ([3, 7] : List Int), i < (inputTokensTensor c10Cfg).numel) ↔
      ([3, 7] : List Int).length ≤ 8) :=
  ⟨⟨rfl, rfl, rfl⟩,
    (forward_token_write_bounds c10Cfg c10Model c10After rfl rfl rfl).1,
    (forward_token_write_bounds c10Cfg c10Model c10After rfl rfl rfl).2.1,
    (forward_token_write_bounds c10Cfg c10Model c10After rfl rfl rfl).2.2.1
      heap0 [3, 7] 1 (by decide),
    (forward_token_write_bounds c10Cfg c10Model c10After rfl rfl rfl).2.2.2 [3, 7]⟩

end Inference
